import Mathlib

/-!
# Verification of the MediConnect portal (`src/app.py`)

A shallow embedding of the Flask application `app.py` of the
MediConnect-portal repository: the data model (User, Category, BlogPost),
the upload-folder file store, and the route handlers `register`, `login`,
`create_blog`, `my_posts` and `blog_home`, together with the database
seeding performed by `initialize_database`.

Database rows are modelled as lists of structures; the SQL `filter_by`
queries of the source become `List.filter` / `List.find?`; the upload
folder becomes an association list from relative path to file content.
External library functions used by the source (werkzeug's
`generate_password_hash` / `check_password_hash` / `secure_filename`,
WTForms field validators) are modelled by executable Lean functions that
preserve the interface behaviour the application relies on; each such
model is documented at its definition.
-/

/-- A row of the `user` table (`app.py` lines 40-53).  The SQLAlchemy
columns become plain fields; the `posts` relationship is derivable from
`BlogPost.doctor_id` and is not stored. -/
structure User where
  id : Nat
  username : String
  email : String
  password : String
  role : String
  first_name : String
  last_name : String
  address_line1 : String
  city : String
  state : String
  pincode : String
  profile_picture : Option String
deriving Repr, DecidableEq

/-- A row of the `category` table (`app.py` lines 55-58). -/
structure Category where
  id : Nat
  name : String
deriving Repr, DecidableEq

/-- A row of the `blog_post` table (`app.py` lines 60-69).  `created_at`
is kept abstract as a natural-number timestamp. -/
structure BlogPost where
  id : Nat
  title : String
  image : Option String
  content : String
  summary : String
  is_draft : Bool
  created_at : Nat
  category_id : Nat
  doctor_id : Nat
deriving Repr, DecidableEq

/-- A file stored under the upload folder: relative path and content. -/
structure FileEntry where
  path : String
  content : String
deriving Repr, DecidableEq

/-- The persistent state of the application: the three database tables
plus the contents of the upload folder. -/
structure AppState where
  users : List User
  categories : List Category
  posts : List BlogPost
  files : List FileEntry
deriving Repr, DecidableEq

/-- The column default of `BlogPost.is_draft` (`app.py` line 66:
`db.Column(db.Boolean, default=True)`).  SQLAlchemy applies a column
default only when the attribute is not supplied at construction. -/
def blogPostIsDraftDefault : Bool := true

/-- Model of werkzeug's `generate_password_hash` (used at `app.py` line
127).  The real function returns a salted PBKDF2 string of the form
`pbkdf2:sha256:...$salt$hexdigest`; the model preserves the two
properties the application relies on: the output is never equal to the
plaintext, and `check_password_hash` accepts exactly the original
plaintext. -/
def generate_password_hash (p : String) : String :=
  "pbkdf2:sha256:600000" ++ "$" ++ p

/-- Model of werkzeug's `check_password_hash` (used at `app.py` line
178): accepts exactly the plaintext from which the stored hash was
generated. -/
def check_password_hash (stored candidate : String) : Bool :=
  stored == generate_password_hash candidate

/-- Model of werkzeug's `secure_filename` (used at `app.py` lines 131
and 229): keeps only filename-safe characters.  The model is a pure
function of the submitted filename alone - in particular two uploads
with the same submitted name always sanitize to the same stored name. -/
def secure_filename (s : String) : String :=
  String.mk (s.data.filter fun c => c.isAlphanum || c == '.' || c == '_' || c == '-')

/-- Writing a file at `path` (werkzeug `FileStorage.save`, `app.py`
lines 139 and 237): an existing file at the same path is replaced,
otherwise the file is appended. -/
def saveFile (files : List FileEntry) (path content : String) : List FileEntry :=
  if files.any (fun e => e.path == path) then
    files.map fun e => if e.path == path then { e with content := content } else e
  else
    files ++ [⟨path, content⟩]

/-- Reading a stored file by path. -/
def readFile (files : List FileEntry) (path : String) : Option String :=
  (files.find? fun e => e.path == path).map (·.content)

/-- `User.query.filter_by(username=...).first()` (`app.py` lines 88 and
177). -/
def findByUsername (st : AppState) (username : String) : Option User :=
  st.users.find? fun u => u.username == username

/-- Flask-Login's `load_user` (`app.py` lines 113-115):
`User.query.get(user_id)`. -/
def load_user (st : AppState) (user_id : Nat) : Option User :=
  st.users.find? fun u => u.id == user_id

/-- Fresh primary key for an autoincrement insert. -/
def nextId (ids : List Nat) : Nat :=
  ids.foldr max 0 + 1

/-- Outcome of the `login` route. -/
inductive LoginResult where
  | success (userId : Nat) (redirectTo : String)
  | failure (message : String)
deriving Repr, DecidableEq

/-- The uniform flash message of a failed login (`app.py` line 186). -/
def loginFailureMessage : String :=
  "Login Unsuccessful. Please check username, password and role"

/-- The credential decision of the `login` route (`app.py` lines
177-186): look the user up by username; succeed exactly when the user
exists, the stored hash checks against the submitted password, and the
stored role equals the claimed role; otherwise flash the single uniform
failure message.  On success the user is redirected to the dashboard of
their stored role (lines 181-184). -/
def login (st : AppState) (username password role : String) : LoginResult :=
  match findByUsername st username with
  | some user =>
      if check_password_hash user.password password && (user.role == role) then
        .success user.id
          (if user.role == "doctor" then "doctors_dashboard" else "patients_dashboard")
      else
        .failure loginFailureMessage
  | none => .failure loginFailureMessage

/-- `LoginResult.failure` recogniser. -/
def LoginResult.isFailure : LoginResult → Bool
  | .failure _ => true
  | .success _ _ => false

/-- The data submitted through `RegistrationForm` (`app.py` lines
72-95).  A file upload is a pair of submitted filename and content. -/
structure RegistrationData where
  role : String
  first_name : String
  last_name : String
  username : String
  email : String
  password : String
  confirm_password : String
  address_line1 : String
  city : String
  state : String
  pincode : String
  profile_picture : Option (String × String)
deriving Repr, DecidableEq

/-- `User.query.filter_by(username=...)` is non-empty (`app.py` lines
88-89). -/
def usernameTaken (st : AppState) (username : String) : Bool :=
  st.users.any fun u => u.username == username

/-- `User.query.filter_by(email=...)` is non-empty (`app.py` lines
93-94). -/
def emailTaken (st : AppState) (email : String) : Bool :=
  st.users.any fun u => u.email == email

/-- Duplicate-username message raised by
`RegistrationForm.validate_username` (`app.py` line 90). -/
def usernameTakenMessage : String :=
  "username: That username is taken. Please choose a different one."

/-- Duplicate-email message raised by `RegistrationForm.validate_email`
(`app.py` line 95). -/
def emailTakenMessage : String :=
  "email: That email is taken. Please choose a different one."

/-- WTForms validation chain for a field guarded by `DataRequired` plus
`Length(lo, hi)`: `DataRequired` stops validation of the field when the
value is empty; a length violation is recorded and the chain
continues. -/
def requiredLengthErrors (field value : String) (lo hi : Nat) : List String :=
  if value == "" then [field ++ ": This field is required."]
  else if lo ≤ value.length && value.length ≤ hi then [] else
    [field ++ ": Field must be between " ++ toString lo ++ " and " ++ toString hi ++
      " characters long."]

/-- WTForms validation of a field with `DataRequired` alone. -/
def requiredErrors (field value : String) : List String :=
  if value == "" then [field ++ ": This field is required."] else []

/-- Validation of the `username` field (`app.py` line 76 and lines
87-90): `DataRequired` stops on empty; otherwise the `Length(2, 20)`
error and the duplicate error of `validate_username` accumulate. -/
def usernameFieldErrors (st : AppState) (username : String) : List String :=
  if username == "" then ["username: This field is required."]
  else
    (if 2 ≤ username.length && username.length ≤ 20 then [] else
      ["username: Field must be between 2 and 20 characters long."]) ++
    (if usernameTaken st username then [usernameTakenMessage] else [])

/-- Validation of the `email` field (`app.py` line 77 and lines 92-95).
The external `Email()` shape validator is modelled as requiring an `@`
character. -/
def emailFieldErrors (st : AppState) (email : String) : List String :=
  if email == "" then ["email: This field is required."]
  else
    (if email.data.any (fun c => c == '@') then [] else ["email: Invalid email address."]) ++
    (if emailTaken st email then [emailTakenMessage] else [])

/-- `FileAllowed` extension allow-list (model of flask_wtf, `app.py`
line 84 / line 105). -/
def fileAllowedErrors (field : String) (upload : Option (String × String))
    (exts : List String) : List String :=
  match upload with
  | none => []
  | some (name, _) =>
      if exts.any (fun e => ("." ++ e).data.isSuffixOf name.data) then [] else
        [field ++ ": File does not have an approved extension."]

/-- All validation errors of `RegistrationForm` on a submission
(`app.py` lines 72-95), in field order; `form.validate_on_submit()` is
true exactly when this list is empty. -/
def registrationErrors (st : AppState) (f : RegistrationData) : List String :=
  (if f.role == "doctor" || f.role == "patient" then [] else ["role: Not a valid choice."]) ++
  requiredLengthErrors "first_name" f.first_name 2 50 ++
  requiredLengthErrors "last_name" f.last_name 2 50 ++
  usernameFieldErrors st f.username ++
  emailFieldErrors st f.email ++
  requiredErrors "password" f.password ++
  (if f.confirm_password == "" then ["confirm_password: This field is required."]
   else if f.confirm_password == f.password then [] else
    ["confirm_password: Field must be equal to password."]) ++
  requiredErrors "address_line1" f.address_line1 ++
  requiredErrors "city" f.city ++
  (if f.state == "" then ["state: This field is required."]
   else if f.state.length ≤ 50 then [] else
    ["state: Field cannot be longer than 50 characters."]) ++
  requiredLengthErrors "pincode" f.pincode 5 10 ++
  fileAllowedErrors "profile_picture" f.profile_picture ["jpg", "png"]

/-- Outcome of the `register` route. -/
inductive RegisterResult where
  | success (userId : Nat) (redirectTo : String)
  | validationFailed (errors : List String)
  | storageError (message : String)
deriving Repr, DecidableEq

/-- The file-saving step of `register` (`app.py` lines 128-140): when a
profile picture was submitted, its sanitized name is written under
`profile_pics/` (overwriting any file already stored at that path) and
the relative path recorded; otherwise nothing happens. -/
def registerSaveFile (files : List FileEntry) (upload : Option (String × String)) :
    Option String × List FileEntry :=
  match upload with
  | none => (none, files)
  | some (name, content) =>
      let filename := secure_filename name
      let rel := "profile_pics/" ++ filename
      (some rel, saveFile files rel content)

/-- The `register` route (`app.py` lines 122-171).  When the form
validates: the password is hashed, a submitted profile picture is saved
to disk, and the user row is inserted and committed.  `commitFails`
models the `except` branch: an exception raised by the database commit
triggers `db.session.rollback()`, which undoes the row insert but not
the file already written to disk.  When validation fails the state is
untouched and the field errors are flashed. -/
def register (st : AppState) (f : RegistrationData) (commitFails : Bool) :
    RegisterResult × AppState :=
  let errs := registrationErrors st f
  if errs.isEmpty then
    let hashed_password := generate_password_hash f.password
    let saved := registerSaveFile st.files f.profile_picture
    if commitFails then
      (.storageError "Error creating account", { st with files := saved.2 })
    else
      let uid := nextId (st.users.map (·.id))
      let user : User :=
        { id := uid, username := f.username, email := f.email,
          password := hashed_password, role := f.role,
          first_name := f.first_name, last_name := f.last_name,
          address_line1 := f.address_line1, city := f.city, state := f.state,
          pincode := f.pincode, profile_picture := saved.1 }
      (.success uid "login", { st with users := st.users ++ [user], files := saved.2 })
  else
    (.validationFailed errs, st)

/-- The data submitted through `BlogPostForm` (`app.py` lines 103-110).
`category` is the selected category id (`coerce=int`); `is_draft` is the
boolean the form parsed from the checkbox. -/
structure BlogPostData where
  title : String
  image : Option (String × String)
  category : Nat
  summary : String
  content : String
  is_draft : Bool
deriving Repr, DecidableEq

/-- WTForms `BooleanField` parsing for the `Save as Draft` checkbox
(`app.py` line 109): the field value is `true` exactly when the checkbox
appears in the submitted form data; an unchecked (absent) checkbox
yields `false`. -/
def booleanFieldData (raw : Option String) : Bool :=
  raw.isSome

/-- Validation errors of `BlogPostForm` on a submission (`app.py` lines
103-110 and 222-223); the category choices are populated from
`Category.query.all()`, so a category id not present in the table is
rejected by the `SelectField`. -/
def blogFormErrors (st : AppState) (f : BlogPostData) : List String :=
  requiredLengthErrors "title" f.title 1 100 ++
  fileAllowedErrors "image" f.image ["jpg", "png", "jpeg"] ++
  (if st.categories.any (fun c => c.id == f.category) then [] else
    ["category: Not a valid choice."]) ++
  requiredLengthErrors "summary" f.summary 1 200 ++
  requiredErrors "content" f.content

/-- Outcome of the `create_blog` route. -/
inductive CreateBlogResult where
  | unauthenticated (redirectTo : String)
  | forbidden
  | validationFailed (errors : List String)
  | storageError (message : String)
  | success (postId : Nat) (redirectTo : String)
deriving Repr, DecidableEq

/-- The file-saving step of `create_blog` (`app.py` lines 227-238):
mirror of `registerSaveFile` with the `blog_images/` directory. -/
def createBlogSaveFile (files : List FileEntry) (upload : Option (String × String)) :
    Option String × List FileEntry :=
  match upload with
  | none => (none, files)
  | some (name, content) =>
      let filename := secure_filename name
      let rel := "blog_images/" ++ filename
      (some rel, saveFile files rel content)

/-- The `create_blog` route (`app.py` lines 216-258).  `session` is the
logged-in user id carried by the session cookie, `none` for an anonymous
request; `@login_required` redirects an unresolved principal to the
`login` view (lines 35-36), then the handler aborts with 403 unless the
current user's role is `doctor` (lines 219-220).  On a validated form
the optional image is saved, then the post row is inserted with
`is_draft` taken verbatim from the form and `doctor_id` set to the
current user's id.  `commitFails` models the `except` branch: the row
insert is rolled back, the already-saved image file is not removed.
`now` is the `datetime.utcnow` timestamp of the insert. -/
def create_blog (st : AppState) (session : Option Nat) (f : BlogPostData)
    (commitFails : Bool) (now : Nat) : CreateBlogResult × AppState :=
  match session.bind (load_user st) with
  | none => (.unauthenticated "login", st)
  | some current_user =>
      if current_user.role != "doctor" then
        (.forbidden, st)
      else
        let errs := blogFormErrors st f
        if errs.isEmpty then
          let saved := createBlogSaveFile st.files f.image
          if commitFails then
            (.storageError "Error creating blog post", { st with files := saved.2 })
          else
            let pid := nextId (st.posts.map (·.id))
            let post : BlogPost :=
              { id := pid, title := f.title, image := saved.1,
                content := f.content, summary := f.summary,
                is_draft := f.is_draft, created_at := now,
                category_id := f.category, doctor_id := current_user.id }
            (.success pid "my_posts", { st with posts := st.posts ++ [post], files := saved.2 })
        else
          (.validationFailed errs, st)

/-- The query of the `my_posts` route (`app.py` line 266):
`BlogPost.query.filter_by(doctor_id=current_user.id).all()` - every post
of the author, drafts included. -/
def my_posts (st : AppState) (doctor_id : Nat) : List BlogPost :=
  st.posts.filter fun p => p.doctor_id == doctor_id

/-- The query of the `blog_home` route (`app.py` lines 275-283): for
every category in `Category.query.all()` - also those with no published
post - the list of its posts with `is_draft=False`. -/
def blog_home (st : AppState) : List (Category × List BlogPost) :=
  st.categories.map fun category =>
    (category, st.posts.filter fun p => p.category_id == category.id && !p.is_draft)

/-- The fixed category names seeded by `initialize_database` (`app.py`
line 307). -/
def defaultCategoryNames : List String :=
  ["Mental Health", "Heart Disease", "Covid19", "Immunization"]

/-- The state after `initialize_database` (`app.py` lines 288-316) on an
empty database: no users, no posts, no files recorded, and the four
default categories inserted with sequential autoincrement ids. -/
def initialize_database : AppState :=
  { users := [], posts := [], files := [],
    categories := (defaultCategoryNames.zip (List.range defaultCategoryNames.length)).map
      fun (n, i) => { id := i + 1, name := n } }

/-- A state-changing request to the application: a registration
submission or a blog-creation submission (`login`, `logout` and the
read-only views leave the persistent state untouched and are omitted
from the action type; no route ever updates or deletes a row). -/
inductive Request where
  | register (f : RegistrationData) (commitFails : Bool)
  | create_blog (session : Option Nat) (f : BlogPostData) (commitFails : Bool) (now : Nat)
deriving Repr

/-- State transition of one request. -/
def step (st : AppState) (a : Request) : AppState :=
  match a with
  | .register f commitFails => (register st f commitFails).2
  | .create_blog s f commitFails now => (create_blog st s f commitFails now).2

/-- Run a sequence of requests from a starting state. -/
def run (st : AppState) (acts : List Request) : AppState :=
  acts.foldl step st

/-- Referential invariant of the content store: every blog post's
`doctor_id` is the id of a stored user whose role is `doctor`. -/
def doctorRefInvariant (st : AppState) : Prop :=
  ∀ p ∈ st.posts, ∃ u ∈ st.users, u.id = p.doctor_id ∧ u.role = "doctor"

/-- A registered doctor, as produced by a successful registration. -/
def alice : User :=
  { id := 1, username := "alice", email := "alice@example.com",
    password := generate_password_hash "Secr3t!", role := "doctor",
    first_name := "Alice", last_name := "Smith", address_line1 := "1 Main St",
    city := "Pune", state := "MH", pincode := "411001", profile_picture := none }

/-- A registered patient. -/
def bob : User :=
  { id := 2, username := "bob", email := "bob@example.com",
    password := generate_password_hash "hunter2!", role := "patient",
    first_name := "Bob", last_name := "Jones", address_line1 := "2 Oak St",
    city := "Pune", state := "MH", pincode := "411002", profile_picture := none }

/-- A small concrete state: one doctor, one patient, one seeded
category, no posts, no uploaded files. -/
def stDoc : AppState :=
  { users := [alice, bob],
    categories := [{ id := 1, name := "Immunization" }],
    posts := [], files := [] }

/-- The user row inserted by a successful `register` (`app.py` lines
142-154). -/
def registeredUser (st : AppState) (f : RegistrationData) : User :=
  { id := nextId (st.users.map (·.id)), username := f.username, email := f.email,
    password := generate_password_hash f.password, role := f.role,
    first_name := f.first_name, last_name := f.last_name,
    address_line1 := f.address_line1, city := f.city, state := f.state,
    pincode := f.pincode, profile_picture := (registerSaveFile st.files f.profile_picture).1 }

/-- The post row inserted by a successful `create_blog` (`app.py` lines
240-248). -/
def createdPost (st : AppState) (u : User) (f : BlogPostData) (now : Nat) : BlogPost :=
  { id := nextId (st.posts.map (·.id)), title := f.title,
    image := (createBlogSaveFile st.files f.image).1, content := f.content,
    summary := f.summary, is_draft := f.is_draft, created_at := now,
    category_id := f.category, doctor_id := u.id }

/-- A valid blog submission marked as draft. -/
def fluDraft : BlogPostData :=
  { title := "Flu Season", image := none, category := 1,
    summary := "Get vaccinated", content := "Flu shots help.", is_draft := true }

/-- The same submission with the `Save as Draft` checkbox absent from
the request: WTForms parses the missing checkbox as `false`. -/
def postFormNoDraftChoice : BlogPostData :=
  { title := "Flu Season", image := none, category := 1,
    summary := "Get vaccinated", content := "Flu shots help.",
    is_draft := booleanFieldData none }

/-- A registration submission reusing the username `alice`. -/
def dupForm : RegistrationData :=
  { role := "patient", first_name := "Alicia", last_name := "Brown",
    username := "alice", email := "alicia@example.com", password := "pw123456",
    confirm_password := "pw123456", address_line1 := "3 Elm St", city := "Pune",
    state := "MH", pincode := "411003", profile_picture := none }

/-- A valid registration submission carrying a profile picture. -/
def picForm : RegistrationData :=
  { role := "patient", first_name := "Carol", last_name := "White",
    username := "carol", email := "carol@example.com", password := "pw123456",
    confirm_password := "pw123456", address_line1 := "4 Ash St", city := "Pune",
    state := "MH", pincode := "411004", profile_picture := some ("avatar.jpg", "PIC-A") }

/-- First of two registrations whose uploads share the sanitized
filename `avatar.jpg`. -/
def regA : RegistrationData :=
  { role := "patient", first_name := "Dave", last_name := "Green",
    username := "dave", email := "dave@example.com", password := "pw123456",
    confirm_password := "pw123456", address_line1 := "5 Fir St", city := "Pune",
    state := "MH", pincode := "411005", profile_picture := some ("avatar.jpg", "PIC-A") }

/-- Second registration whose upload collides with `regA`. -/
def regB : RegistrationData :=
  { role := "patient", first_name := "Erin", last_name := "Black",
    username := "erin", email := "erin@example.com", password := "pw123456",
    confirm_password := "pw123456", address_line1 := "6 Oak St", city := "Pune",
    state := "MH", pincode := "411006", profile_picture := some ("avatar.jpg", "PIC-B") }

/-- A valid registration submission against the freshly seeded
database. -/
def freshForm : RegistrationData :=
  { role := "doctor", first_name := "Frank", last_name := "Gray",
    username := "frank", email := "frank@example.com", password := "S3cretpw",
    confirm_password := "S3cretpw", address_line1 := "7 Elm St", city := "Pune",
    state := "MH", pincode := "411007", profile_picture := none }

/-- The draft submission extended with a blog image. -/
def fluImgForm : BlogPostData :=
  { title := "Flu Season", image := some ("flu.jpg", "IMG-1"), category := 1,
    summary := "Get vaccinated", content := "Flu shots help.", is_draft := true }

/-- C1: `authenticate(username, password, claimedRole)` fails exactly
when the username is unknown, the password does not check against the
stored hash, or the claimed role differs from the stored role; every
failure carries the single uniform message, so a wrong-role failure is
observably identical to a wrong-password failure. -/
theorem login_fails_iff_invalid_credentials (st : AppState) (u p r : String) :
    ((login st u p r).isFailure = true ↔
      findByUsername st u = none ∨
        ∃ user, findByUsername st u = some user ∧
          (check_password_hash user.password p = false ∨ user.role ≠ r)) ∧
    (∀ m, login st u p r = .failure m → m = loginFailureMessage) ∧
    (∀ user p2, findByUsername st u = some user →
      check_password_hash user.password p = true → user.role ≠ r →
      check_password_hash user.password p2 = false →
      login st u p r = .failure loginFailureMessage ∧
      login st u p2 user.role = .failure loginFailureMessage) := by
  refine ⟨?_, ?_, ?_⟩
  · unfold login
    cases hfind : findByUsername st u with
    | none => simp [LoginResult.isFailure]
    | some user =>
      by_cases h1 : check_password_hash user.password p = true <;>
        by_cases h2 : user.role = r <;>
          simp [LoginResult.isFailure, h1, h2]
  · intro m hm
    have hshape : login st u p r = .failure loginFailureMessage ∨
        ∃ uid rd, login st u p r = .success uid rd := by
      unfold login
      cases findByUsername st u with
      | none => exact Or.inl rfl
      | some user =>
        by_cases hc : (check_password_hash user.password p && (user.role == r)) = true
        · refine Or.inr ⟨user.id,
            if (user.role == "doctor") = true then "doctors_dashboard" else "patients_dashboard",
            ?_⟩
          simp only [hc, if_true]
        · exact Or.inl (by simp only [hc, if_false, Bool.false_eq_true])
    rcases hshape with hs | ⟨uid, rd, hs⟩
    · rw [hs] at hm; injection hm with h; exact h.symm
    · rw [hs] at hm; cases hm
  · intro user p2 hfind hcp hrole hcp2
    constructor
    · have hb : (user.role == r) = false := by simp [hrole]
      simp [login, hfind, hcp, hb]
    · simp [login, hfind, hcp2]

/-- Concrete check of `login_fails_iff_invalid_credentials`: logging in
as alice with the correct password but role `patient` fails with the
same observable outcome as logging in with a wrong password. -/
theorem login_fails_iff_invalid_credentials_witness :
    login stDoc "alice" "Secr3t!" "patient" = .failure loginFailureMessage ∧
    login stDoc "alice" "wrongpw" "doctor" = .failure loginFailureMessage := by
  have h := (login_fails_iff_invalid_credentials stDoc "alice" "Secr3t!" "patient").2.2
    alice "wrongpw" (by decide) (by decide) (by decide) (by decide)
  exact ⟨h.1, h.2⟩


lemma register_valid_state (st : AppState) (f : RegistrationData)
    (hvalid : registrationErrors st f = []) :
    register st f false =
      (.success (nextId (st.users.map (·.id))) "login",
       { st with users := st.users ++ [registeredUser st f],
                 files := (registerSaveFile st.files f.profile_picture).2 }) := by
  simp [register, hvalid, registeredUser]

lemma register_failed_commit (st : AppState) (f : RegistrationData)
    (hvalid : registrationErrors st f = []) :
    register st f true =
      (.storageError "Error creating account",
       { st with files := (registerSaveFile st.files f.profile_picture).2 }) := by
  simp [register, hvalid]

lemma register_invalid (st : AppState) (f : RegistrationData) (cf : Bool)
    (hne : registrationErrors st f ≠ []) :
    register st f cf = (.validationFailed (registrationErrors st f), st) := by
  have hb : (registrationErrors st f).isEmpty = false := by
    cases hh : registrationErrors st f with
    | nil => exact absurd hh hne
    | cons a l => rfl
  simp [register, hb]

lemma create_blog_anonymous (st : AppState) (f : BlogPostData) (cf : Bool) (now : Nat) :
    create_blog st none f cf now = (.unauthenticated "login", st) := rfl

lemma create_blog_unknown_session (st : AppState) (sid : Nat) (f : BlogPostData)
    (cf : Bool) (now : Nat) (hload : load_user st sid = none) :
    create_blog st (some sid) f cf now = (.unauthenticated "login", st) := by
  simp [create_blog, hload]

lemma create_blog_wrong_role (st : AppState) (sid : Nat) (u : User) (f : BlogPostData)
    (cf : Bool) (now : Nat) (hload : load_user st sid = some u)
    (hrole : u.role ≠ "doctor") :
    create_blog st (some sid) f cf now = (.forbidden, st) := by
  simp [create_blog, hload, hrole]

lemma create_blog_invalid (st : AppState) (sid : Nat) (u : User) (f : BlogPostData)
    (cf : Bool) (now : Nat) (hload : load_user st sid = some u)
    (hrole : u.role = "doctor") (hne : blogFormErrors st f ≠ []) :
    create_blog st (some sid) f cf now = (.validationFailed (blogFormErrors st f), st) := by
  have hb : (blogFormErrors st f).isEmpty = false := by
    cases hh : blogFormErrors st f with
    | nil => exact absurd hh hne
    | cons a l => rfl
  simp [create_blog, hload, hrole, hb]

lemma create_blog_valid (st : AppState) (sid : Nat) (u : User) (f : BlogPostData)
    (now : Nat) (hload : load_user st sid = some u) (hrole : u.role = "doctor")
    (hvalid : blogFormErrors st f = []) :
    create_blog st (some sid) f false now =
      (.success (nextId (st.posts.map (·.id))) "my_posts",
       { st with posts := st.posts ++ [createdPost st u f now],
                 files := (createBlogSaveFile st.files f.image).2 }) := by
  simp [create_blog, hload, hrole, hvalid, createdPost]

lemma create_blog_failed_commit (st : AppState) (sid : Nat) (u : User) (f : BlogPostData)
    (now : Nat) (hload : load_user st sid = some u) (hrole : u.role = "doctor")
    (hvalid : blogFormErrors st f = []) :
    create_blog st (some sid) f true now =
      (.storageError "Error creating blog post",
       { st with files := (createBlogSaveFile st.files f.image).2 }) := by
  simp [create_blog, hload, hrole, hvalid]

lemma register_users_cases (st : AppState) (f : RegistrationData) (cf : Bool) :
    (register st f cf).2.users = st.users ∨
    (register st f cf).2.users = st.users ++ [registeredUser st f] := by
  by_cases he : registrationErrors st f = []
  · cases cf
    · rw [register_valid_state st f he]
      exact Or.inr rfl
    · rw [register_failed_commit st f he]
      exact Or.inl rfl
  · rw [register_invalid st f cf he]
    exact Or.inl rfl

lemma register_posts_eq (st : AppState) (f : RegistrationData) (cf : Bool) :
    (register st f cf).2.posts = st.posts := by
  by_cases he : registrationErrors st f = []
  · cases cf
    · rw [register_valid_state st f he]
    · rw [register_failed_commit st f he]
  · rw [register_invalid st f cf he]

lemma create_blog_users_eq (st : AppState) (s : Option Nat) (f : BlogPostData)
    (cf : Bool) (now : Nat) :
    (create_blog st s f cf now).2.users = st.users := by
  cases s with
  | none => rfl
  | some sid =>
      cases hload : load_user st sid with
      | none => rw [create_blog_unknown_session st sid f cf now hload]
      | some u =>
          by_cases hr : u.role = "doctor"
          · by_cases he : blogFormErrors st f = []
            · cases cf
              · rw [create_blog_valid st sid u f now hload hr he]
              · rw [create_blog_failed_commit st sid u f now hload hr he]
            · rw [create_blog_invalid st sid u f cf now hload hr he]
          · rw [create_blog_wrong_role st sid u f cf now hload hr]

lemma create_blog_posts_cases (st : AppState) (s : Option Nat) (f : BlogPostData)
    (cf : Bool) (now : Nat) :
    (create_blog st s f cf now).2.posts = st.posts ∨
    ∃ sid u, s = some sid ∧ load_user st sid = some u ∧ u.role = "doctor" ∧
      (create_blog st s f cf now).2.posts = st.posts ++ [createdPost st u f now] := by
  cases s with
  | none => exact Or.inl rfl
  | some sid =>
      cases hload : load_user st sid with
      | none =>
          rw [create_blog_unknown_session st sid f cf now hload]
          exact Or.inl rfl
      | some u =>
          by_cases hr : u.role = "doctor"
          · by_cases he : blogFormErrors st f = []
            · cases cf
              · rw [create_blog_valid st sid u f now hload hr he]
                exact Or.inr ⟨sid, u, rfl, hload, hr, rfl⟩
              · rw [create_blog_failed_commit st sid u f now hload hr he]
                exact Or.inl rfl
            · rw [create_blog_invalid st sid u f cf now hload hr he]
              exact Or.inl rfl
          · rw [create_blog_wrong_role st sid u f cf now hload hr]
            exact Or.inl rfl

/-- C4: a logged-in patient requesting `/blog/create` is answered with
403 Forbidden, while the same anonymous request is redirected to the
login view by `@login_required`; the two outcomes are distinct
constructors, so a Forbidden is never turned into an Unauthenticated. -/
theorem create_blog_patient_forbidden_anonymous_unauthenticated
    (st : AppState) (sid now : Nat) (u : User) (f : BlogPostData) (cf : Bool)
    (hload : load_user st sid = some u) (hrole : u.role = "patient") :
    (create_blog st (some sid) f cf now).1 = .forbidden ∧
    (create_blog st none f cf now).1 = .unauthenticated "login" ∧
    (.forbidden : CreateBlogResult) ≠ .unauthenticated "login" := by
  refine ⟨?_, rfl, by simp⟩
  rw [create_blog_wrong_role st sid u f cf now hload (by rw [hrole]; simp)]

/-- Concrete check of
`create_blog_patient_forbidden_anonymous_unauthenticated`: bob (a
patient) gets Forbidden where the anonymous request gets the login
redirect. -/
theorem create_blog_patient_forbidden_anonymous_unauthenticated_witness :
    (create_blog stDoc (some 2)
      { title := "T", image := none, category := 1, summary := "s",
        content := "c", is_draft := true } false 0).1 = .forbidden ∧
    (create_blog stDoc none
      { title := "T", image := none, category := 1, summary := "s",
        content := "c", is_draft := true } false 0).1 = .unauthenticated "login" := by
  have h := create_blog_patient_forbidden_anonymous_unauthenticated stDoc 2 0 bob
    { title := "T", image := none, category := 1, summary := "s",
      content := "c", is_draft := true } false (by decide) (by decide)
  exact ⟨h.1, h.2.1⟩

lemma blogFormErrors_nil_category (st : AppState) (f : BlogPostData)
    (h : blogFormErrors st f = []) :
    st.categories.any (fun c => c.id == f.category) = true := by
  by_cases hc : st.categories.any (fun c => c.id == f.category) = true
  · exact hc
  · have hb : st.categories.any (fun c => c.id == f.category) = false := by
      simpa using hc
    rw [blogFormErrors, hb] at h
    simp [List.append_eq_nil] at h

/-- C2: a post created by a doctor lands in the author's `my_posts`
view; while it is a draft it is absent from every category list of the
patient-facing `blog_home` view; once `is_draft` is false it also
appears in the `blog_home` list of its category. -/
theorem draft_visibility (st : AppState) (sid now : Nat) (u : User) (f : BlogPostData)
    (hload : load_user st sid = some u) (hrole : u.role = "doctor")
    (hvalid : blogFormErrors st f = []) :
    ∃ p, (create_blog st (some sid) f false now).2.posts = st.posts ++ [p] ∧
      p.is_draft = f.is_draft ∧ p.doctor_id = u.id ∧
      p ∈ my_posts (create_blog st (some sid) f false now).2 u.id ∧
      (f.is_draft = true →
        ∀ e ∈ blog_home (create_blog st (some sid) f false now).2, p ∉ e.2) ∧
      (f.is_draft = false →
        ∃ e ∈ blog_home (create_blog st (some sid) f false now).2,
          e.1.id = f.category ∧ p ∈ e.2) := by
  rw [create_blog_valid st sid u f now hload hrole hvalid]
  refine ⟨createdPost st u f now, rfl, rfl, rfl, ?_, ?_, ?_⟩
  · refine List.mem_filter.mpr ⟨List.mem_append_right _ ?_, by simp [createdPost]⟩
    simp
  · intro hd e he hmem
    obtain ⟨c, hc, rfl⟩ := List.mem_map.mp he
    have hpred := (List.mem_filter.mp hmem).2
    simp [createdPost, hd] at hpred
  · intro hd
    obtain ⟨c, hcmem, hcid⟩ := List.any_eq_true.mp (blogFormErrors_nil_category st f hvalid)
    have heq : c.id = f.category := by simpa using hcid
    refine ⟨(c, _), List.mem_map.mpr ⟨c, hcmem, rfl⟩, heq, ?_⟩
    refine List.mem_filter.mpr ⟨List.mem_append_right _ ?_, ?_⟩
    · simp
    · simp [createdPost, hd, heq]

/-- Concrete check of `draft_visibility`: after alice saves a draft it
is in her `my_posts` list while the only browse category still shows no
posts. -/
theorem draft_visibility_witness :
    my_posts (create_blog stDoc (some 1) fluDraft false 0).2 alice.id ≠ [] ∧
    (blog_home (create_blog stDoc (some 1) fluDraft false 0).2).map Prod.snd = [[]] := by
  obtain ⟨p, hposts, hdraft, hdoc, hmem, hblock, -⟩ :=
    draft_visibility stDoc 1 0 alice fluDraft (by decide) (by decide) (by decide)
  refine ⟨?_, by decide⟩
  intro hnil
  rw [hnil] at hmem
  exact List.not_mem_nil p hmem

/-- C5 counterexample: a creation request in which the draft checkbox
is absent (no explicit draft choice) produces a post with
`is_draft = false`, not `true` - the column default is bypassed because
`create_blog` always passes the parsed checkbox value. -/
theorem create_blog_draft_default_counterexample :
    booleanFieldData none = false ∧ blogPostIsDraftDefault = true ∧
    (create_blog stDoc (some 1) postFormNoDraftChoice false 0).2.posts.map
      (·.is_draft) = [false] := by decide

/-- C5 as amended: the `is_draft` column default is `true`, but every
post created through `create_blog` carries exactly the submitted
checkbox value, and the checkbox parses to `false` when absent from the
request; the default would apply only to an insert that omits the
attribute, which the application never performs. -/
theorem create_blog_is_draft_from_form (st : AppState) (sid now : Nat) (u : User)
    (f : BlogPostData) (hload : load_user st sid = some u)
    (hrole : u.role = "doctor") (hvalid : blogFormErrors st f = []) :
    blogPostIsDraftDefault = true ∧ booleanFieldData none = false ∧
    ∃ p, (create_blog st (some sid) f false now).2.posts = st.posts ++ [p] ∧
      p.is_draft = f.is_draft := by
  rw [create_blog_valid st sid u f now hload hrole hvalid]
  exact ⟨rfl, rfl, createdPost st u f now, rfl, rfl⟩

/-- Concrete check of `create_blog_is_draft_from_form` on the request
with the checkbox absent. -/
theorem create_blog_is_draft_from_form_witness :
    (create_blog stDoc (some 1) postFormNoDraftChoice false 0).2.posts.map
      (·.is_draft) = [postFormNoDraftChoice.is_draft] := by
  obtain ⟨-, -, p, hposts, hdraft⟩ :=
    create_blog_is_draft_from_form stDoc 1 0 alice postFormNoDraftChoice
      (by decide) (by decide) (by decide)
  rw [hposts]
  simp [hdraft, stDoc]

/-- C8: the patient browse view has exactly one entry per category of
the store - categories with no published post included, paired with the
empty list - and each entry holds exactly the non-draft posts of that
category. -/
theorem blog_home_complete (st : AppState) :
    (blog_home st).map Prod.fst = st.categories ∧
    ∀ e ∈ blog_home st, ∀ p,
      p ∈ e.2 ↔ p ∈ st.posts ∧ p.category_id = e.1.id ∧ p.is_draft = false := by
  constructor
  · have key : ∀ (cs : List Category) (ps : List BlogPost),
        (cs.map fun c =>
          (c, ps.filter fun p => p.category_id == c.id && !p.is_draft)).map Prod.fst = cs := by
      intro cs ps
      induction cs with
      | nil => rfl
      | cons c t ih => simp only [List.map_cons, ih]
    exact key st.categories st.posts
  · intro e he p
    obtain ⟨c, hc, rfl⟩ := List.mem_map.mp he
    constructor
    · intro hmem
      obtain ⟨hp, hpred⟩ := List.mem_filter.mp hmem
      simp at hpred
      exact ⟨hp, hpred.1, hpred.2⟩
    · intro ⟨hp, hcat, hdraft⟩
      refine List.mem_filter.mpr ⟨hp, ?_⟩
      simp [hcat, hdraft]

/-- Concrete check of `blog_home_complete` on the seeded database: all
four default categories are rendered, each with an empty list. -/
theorem blog_home_complete_witness :
    (blog_home initialize_database).map Prod.fst = initialize_database.categories ∧
    (blog_home initialize_database).map Prod.snd = [[], [], [], []] :=
  ⟨(blog_home_complete initialize_database).1, by decide⟩

lemma usernameTaken_mem_errors (st : AppState) (f : RegistrationData)
    (hne : f.username ≠ "") (ht : usernameTaken st f.username = true) :
    usernameTakenMessage ∈ registrationErrors st f := by
  have h1 : usernameTakenMessage ∈ usernameFieldErrors st f.username := by
    rw [usernameFieldErrors]
    have hb : (f.username == "") = false := by simpa using hne
    rw [hb]
    simp [ht]
  simp only [registrationErrors, List.mem_append]
  tauto

lemma emailTaken_mem_errors (st : AppState) (f : RegistrationData)
    (hne : f.email ≠ "") (ht : emailTaken st f.email = true) :
    emailTakenMessage ∈ registrationErrors st f := by
  have h1 : emailTakenMessage ∈ emailFieldErrors st f.email := by
    rw [emailFieldErrors]
    have hb : (f.email == "") = false := by simpa using hne
    rw [hb]
    simp [ht]
  simp only [registrationErrors, List.mem_append]
  tauto

/-- C3: a registration whose username or email is already stored fails
validation - the duplicate message of `validate_username` /
`validate_email` is among the flashed errors - and the whole state
(user rows and upload folder alike) is exactly what it was before. -/
theorem register_duplicate_identity (st : AppState) (f : RegistrationData) (cf : Bool)
    (hdup : (usernameTaken st f.username = true ∧ f.username ≠ "") ∨
            (emailTaken st f.email = true ∧ f.email ≠ "")) :
    (register st f cf).2 = st ∧
    (register st f cf).1 = .validationFailed (registrationErrors st f) ∧
    (usernameTakenMessage ∈ registrationErrors st f ∨
     emailTakenMessage ∈ registrationErrors st f) := by
  have hmem : usernameTakenMessage ∈ registrationErrors st f ∨
      emailTakenMessage ∈ registrationErrors st f := by
    rcases hdup with ⟨ht, hne⟩ | ⟨ht, hne⟩
    · exact Or.inl (usernameTaken_mem_errors st f hne ht)
    · exact Or.inr (emailTaken_mem_errors st f hne ht)
  have hnil : registrationErrors st f ≠ [] := by
    rcases hmem with h | h <;> exact List.ne_nil_of_mem h
  rw [register_invalid st f cf hnil]
  exact ⟨rfl, rfl, hmem⟩

/-- Concrete check of `register_duplicate_identity`: re-registering the
username `alice` leaves the store untouched and flashes the duplicate
message. -/
theorem register_duplicate_identity_witness :
    (register stDoc dupForm false).2 = stDoc ∧
    usernameTakenMessage ∈ registrationErrors stDoc dupForm := by
  have h := register_duplicate_identity stDoc dupForm false
    (Or.inl ⟨by decide, by decide⟩)
  refine ⟨h.1, ?_⟩
  rcases h.2.2 with hm | hm
  · exact hm
  · exact absurd hm (by decide)

/-- C6 counterexample: a registration whose commit fails after the
profile picture was written leaves the picture on disk - the claimed
full rollback (no orphaned file) does not happen; only the row insert is
undone. -/
theorem failed_commit_orphan_file_counterexample :
    (register initialize_database picForm true).1 =
      .storageError "Error creating account" ∧
    (register initialize_database picForm true).2.users =
      initialize_database.users ∧
    readFile initialize_database.files "profile_pics/avatar.jpg" = none ∧
    readFile (register initialize_database picForm true).2.files
      "profile_pics/avatar.jpg" = some "PIC-A" := by decide

/-- C6 as amended: when the database commit of `register` or
`create_blog` raises after the upload was saved, `db.session.rollback()`
undoes the row insert - no user or post row persists - but the file
written before the failure stays in the upload folder; the rollback is
database-only. -/
theorem failed_commit_rolls_back_rows_but_not_files (st : AppState)
    (f : RegistrationData) (g : BlogPostData) (sid now : Nat) (u : User)
    (hf : registrationErrors st f = [])
    (hload : load_user st sid = some u) (hrole : u.role = "doctor")
    (hg : blogFormErrors st g = []) :
    ((register st f true).1 = .storageError "Error creating account" ∧
     (register st f true).2.users = st.users ∧
     (register st f true).2.posts = st.posts ∧
     (register st f true).2.files = (registerSaveFile st.files f.profile_picture).2) ∧
    ((create_blog st (some sid) g true now).1 = .storageError "Error creating blog post" ∧
     (create_blog st (some sid) g true now).2.posts = st.posts ∧
     (create_blog st (some sid) g true now).2.users = st.users ∧
     (create_blog st (some sid) g true now).2.files =
       (createBlogSaveFile st.files g.image).2) := by
  rw [register_failed_commit st f hf,
    create_blog_failed_commit st sid u g now hload hrole hg]
  exact ⟨⟨rfl, rfl, rfl, rfl⟩, rfl, rfl, rfl, rfl⟩

/-- Concrete check of `failed_commit_rolls_back_rows_but_not_files`. -/
theorem failed_commit_rolls_back_rows_but_not_files_witness :
    (register stDoc picForm true).1 = .storageError "Error creating account" ∧
    (create_blog stDoc (some 1) fluDraft true 0).1 =
      .storageError "Error creating blog post" := by
  have h := failed_commit_rolls_back_rows_but_not_files stDoc picForm fluDraft 1 0 alice
    (by decide) (by decide) (by decide) (by decide)
  exact ⟨h.1.1, h.2.1⟩

lemma find?_map_replace (files : List FileEntry) (path c : String)
    (h : files.any (fun e => e.path == path) = true) :
    ((files.map fun e => if e.path == path then { e with content := c } else e).find?
      fun e => e.path == path) = some ⟨path, c⟩ := by
  induction files with
  | nil => simp at h
  | cons e es ih =>
      by_cases he : (e.path == path) = true
      · have hpath : e.path = path := by simpa using he
        subst hpath
        simp
      · have h' : es.any (fun x => x.path == path) = true := by
          simp only [List.any_cons, he, Bool.false_or] at h
          exact h
        have hb : (e.path == path) = false := by simpa using he
        simp only [List.map_cons, hb, Bool.false_eq_true, if_false, List.find?, hb]
        exact ih h'

lemma readFile_saveFile (files : List FileEntry) (path c : String) :
    readFile (saveFile files path c) path = some c := by
  unfold saveFile readFile
  by_cases h : files.any (fun e => e.path == path) = true
  · rw [if_pos h, find?_map_replace files path c h]
    rfl
  · rw [if_neg h, List.find?_append]
    have hfalse : files.any (fun e => e.path == path) = false := by simpa using h
    have hnone : files.find? (fun e => e.path == path) = none :=
      List.find?_eq_none.mpr fun x hx => by
        simpa using List.any_eq_false.mp hfalse x hx
    rw [hnone]
    simp

/-- C7 counterexample: two registrations upload different pictures under
the same sanitized filename; after the second one the stored file holds
the second content - the first upload has been silently replaced, no
uniquification happens. -/
theorem upload_overwrite_counterexample :
    readFile (register initialize_database regA false).2.files
      "profile_pics/avatar.jpg" = some "PIC-A" ∧
    readFile (register (register initialize_database regA false).2 regB false).2.files
      "profile_pics/avatar.jpg" = some "PIC-B" := by decide

/-- C7 as amended: the stored path of an upload is exactly the fixed
sanitized name under the designated directory - a pure function of the
submitted filename, independent of the files already stored - and
saving makes the stored content at that path the new upload's content,
replacing whatever an earlier upload with the same sanitized filename
had put there. -/
theorem upload_same_name_overwrites (st : AppState) (f : RegistrationData)
    (name content : String) (hpic : f.profile_picture = some (name, content)) :
    (registerSaveFile st.files f.profile_picture).1 =
      some ("profile_pics/" ++ secure_filename name) ∧
    readFile (registerSaveFile st.files f.profile_picture).2
      ("profile_pics/" ++ secure_filename name) = some content ∧
    ∀ (g : BlogPostData) (n2 c2 : String), g.image = some (n2, c2) →
      (createBlogSaveFile st.files g.image).1 =
        some ("blog_images/" ++ secure_filename n2) ∧
      readFile (createBlogSaveFile st.files g.image).2
        ("blog_images/" ++ secure_filename n2) = some c2 := by
  refine ⟨?_, ?_, ?_⟩
  · rw [hpic]; rfl
  · rw [hpic]
    exact readFile_saveFile st.files _ content
  · intro g n2 c2 himg
    refine ⟨?_, ?_⟩
    · rw [himg]; rfl
    · rw [himg]
      exact readFile_saveFile st.files _ c2


/-- Concrete check of `upload_same_name_overwrites`. -/
theorem upload_same_name_overwrites_witness :
    (registerSaveFile stDoc.files regA.profile_picture).1 =
      some "profile_pics/avatar.jpg" ∧
    readFile (registerSaveFile stDoc.files regA.profile_picture).2
      "profile_pics/avatar.jpg" = some "PIC-A" ∧
    readFile (createBlogSaveFile stDoc.files fluImgForm.image).2
      "blog_images/flu.jpg" = some "IMG-1" := by
  have h := upload_same_name_overwrites stDoc regA "avatar.jpg" "PIC-A" rfl
  have h2 := h.2.2 fluImgForm "flu.jpg" "IMG-1" rfl
  refine ⟨?_, ?_, ?_⟩
  · rw [h.1]; rfl
  · have := h.2.1
    rwa [show ("profile_pics/" ++ secure_filename "avatar.jpg") =
      "profile_pics/avatar.jpg" by rfl] at this
  · have := h2.2
    rwa [show ("blog_images/" ++ secure_filename "flu.jpg") =
      "blog_images/flu.jpg" by rfl] at this

lemma step_users_mono (st : AppState) (a : Request) (u : User) (hu : u ∈ st.users) :
    u ∈ (step st a).users := by
  cases a with
  | register f cf =>
      show u ∈ (register st f cf).2.users
      rcases register_users_cases st f cf with h | h <;> rw [h]
      · exact hu
      · exact List.mem_append_left _ hu
  | create_blog s f cf now =>
      show u ∈ (create_blog st s f cf now).2.users
      rw [create_blog_users_eq]
      exact hu

lemma step_preserves_doctorRefInvariant (st : AppState) (a : Request)
    (hinv : doctorRefInvariant st) : doctorRefInvariant (step st a) := by
  cases a with
  | register f cf =>
      intro p hp
      have hp' : p ∈ st.posts := by
        have := register_posts_eq st f cf
        simpa [step, this] using hp
      obtain ⟨u, hu, h1, h2⟩ := hinv p hp'
      exact ⟨u, step_users_mono st (.register f cf) u hu, h1, h2⟩
  | create_blog s f cf now =>
      intro p hp
      rcases create_blog_posts_cases st s f cf now with h | ⟨sid, u0, hs, hload, hrole, h⟩
      · have hp' : p ∈ st.posts := by simpa [step, h] using hp
        obtain ⟨u, hu, h1, h2⟩ := hinv p hp'
        exact ⟨u, step_users_mono st (.create_blog s f cf now) u hu, h1, h2⟩
      · have hp' : p ∈ st.posts ++ [createdPost st u0 f now] := by
          simpa [step, h] using hp
        rcases List.mem_append.mp hp' with hp1 | hp2
        · obtain ⟨u, hu, h1, h2⟩ := hinv p hp1
          exact ⟨u, step_users_mono st (.create_blog s f cf now) u hu, h1, h2⟩
        · have hpp : p = createdPost st u0 f now := by simpa using hp2
          refine ⟨u0, ?_, ?_, hrole⟩
          · exact step_users_mono st (.create_blog s f cf now) u0
              (List.mem_of_find?_eq_some hload)
          · rw [hpp]; rfl

/-- C9: starting from the seeded database, after any sequence of
requests every stored blog post's `doctor_id` is the id of a stored
user whose role is `doctor`; moreover no request ever removes or
rewrites a user row (a user's role never changes), which is what makes
the invariant stable. -/
theorem doctor_ref_invariant_reachable (acts : List Request) :
    doctorRefInvariant (run initialize_database acts) ∧
    ∀ (st : AppState) (a : Request) (u : User), u ∈ st.users → u ∈ (step st a).users := by
  refine ⟨?_, step_users_mono⟩
  have hrun : ∀ (l : List Request) (st : AppState),
      doctorRefInvariant st → doctorRefInvariant (run st l) := by
    intro l
    induction l with
    | nil => intro st h; exact h
    | cons a rest ih =>
        intro st h
        exact ih (step st a) (step_preserves_doctorRefInvariant st a h)
  refine hrun acts initialize_database ?_
  intro p hp
  simp [initialize_database] at hp

/-- Concrete check of `doctor_ref_invariant_reachable`: the doctor row
survives a request. -/
theorem doctor_ref_invariant_reachable_witness :
    alice ∈ (step stDoc (Request.create_blog (some 1) fluDraft false 0)).users :=
  (doctor_ref_invariant_reachable []).2 stDoc
    (Request.create_blog (some 1) fluDraft false 0) alice (by decide)

lemma registrationErrors_nil_username_free (st : AppState) (f : RegistrationData)
    (h : registrationErrors st f = []) :
    usernameTaken st f.username = false := by
  have hu : usernameFieldErrors st f.username = [] := by
    simp only [registrationErrors, List.append_eq_nil] at h
    tauto
  rw [usernameFieldErrors] at hu
  by_cases hne : (f.username == "") = true
  · rw [if_pos hne] at hu
    simp at hu
  · rw [if_neg hne] at hu
    rcases List.append_eq_nil.mp hu with ⟨-, h2⟩
    by_cases ht : usernameTaken st f.username = true
    · rw [if_pos ht] at h2
      simp at h2
    · simpa using ht

/-- C10: a successful registration stores a password field different
from the submitted plaintext (only the hash is persisted), and logging
in afterwards with the original plaintext and the registered role
succeeds, landing on the dashboard of that role. -/
theorem register_hashes_password_roundtrip (st : AppState) (f : RegistrationData)
    (hvalid : registrationErrors st f = []) :
    ∃ u, (register st f false).2.users = st.users ++ [u] ∧
      u.password ≠ f.password ∧
      u.password = generate_password_hash f.password ∧
      login (register st f false).2 f.username f.password f.role =
        .success u.id
          (if f.role == "doctor" then "doctors_dashboard" else "patients_dashboard") := by
  rw [register_valid_state st f hvalid]
  refine ⟨registeredUser st f, rfl, ?_, rfl, ?_⟩
  · intro hEq
    have hlen := congrArg String.length hEq
    have hru : (registeredUser st f).password =
        "pbkdf2:sha256:600000" ++ "$" ++ f.password := rfl
    rw [hru, String.length_append, String.length_append] at hlen
    have h20 : ("pbkdf2:sha256:600000" : String).length = 20 := rfl
    have h1 : ("$" : String).length = 1 := rfl
    rw [h20, h1] at hlen
    omega
  · have hnone : st.users.find? (fun x => x.username == f.username) = none :=
      List.find?_eq_none.mpr fun x hx => by
        simpa using
          List.any_eq_false.mp (registrationErrors_nil_username_free st f hvalid) x hx
    have hfind : findByUsername
        { st with users := st.users ++ [registeredUser st f],
                  files := (registerSaveFile st.files f.profile_picture).2 }
        f.username = some (registeredUser st f) := by
      unfold findByUsername
      show (st.users ++ [registeredUser st f]).find? (fun x => x.username == f.username) =
        some (registeredUser st f)
      rw [List.find?_append, hnone]
      simp [registeredUser]
    unfold login
    rw [hfind]
    simp [check_password_hash, registeredUser]

/-- Concrete check of `register_hashes_password_roundtrip`: frank
registers on the seeded database and logs back in with the original
plaintext; the stored password is not the plaintext. -/
theorem register_hashes_password_roundtrip_witness :
    login (register initialize_database freshForm false).2 "frank" "S3cretpw" "doctor" =
      .success 1 "doctors_dashboard" ∧
    (register initialize_database freshForm false).2.users.map (·.password) ≠
      ["S3cretpw"] := by
  obtain ⟨u, husers, hne, hhash, hlogin⟩ :=
    register_hashes_password_roundtrip initialize_database freshForm (by decide)
  refine ⟨by decide, ?_⟩
  intro hcontra
  rw [husers] at hcontra
  simp [initialize_database] at hcontra
  exact hne hcontra
